import Mathlib

/-!
Formal model of the Assefa Digital Bingo hub server
(`backend/server.ts`, here `src/unnamed/part_000`, and the variant server in
`src/utilshelpers.ts`), together with the standalone controllers in
`src/admin.ts` and `src/signaling.ts`.

Channels (WebSockets) are modelled by natural-number handles.  Whether a
channel is open (`readyState === WebSocket.OPEN`) is an environment
parameter `openS : Nat → Bool`; whether a `send` on an open channel throws
is the environment parameter `failS : Nat → Bool` (the thrown error is
caught and logged in `broadcastToAll` of `server.ts`).  JavaScript `Map`s
are modelled as insertion-ordered association lists with unique keys;
`Map.set` updates in place when the key is present and appends otherwise.
Randomly generated strings (tokens, fresh ids) and clock reads
(`Date.now()`) are passed in as explicit parameters.
-/

set_option autoImplicit false

/-- `Map.get` on an insertion-ordered association list: first (only) match. -/
def mapGet {α : Type} : List (String × α) → String → Option α
  | [], _ => none
  | p :: rest, k => if p.1 = k then some p.2 else mapGet rest k

/-- `Map.set`: replace the value in place if the key is present, else append. -/
def mapSet {α : Type} : List (String × α) → String → α → List (String × α)
  | [], k, v => [(k, v)]
  | p :: rest, k, v => if p.1 = k then (k, v) :: rest else p :: mapSet rest k v

/-- `Map.delete`: remove the entry for a key (no-op when absent). -/
def mapDelete {α : Type} (m : List (String × α)) (k : String) : List (String × α) :=
  m.filter (fun p => ¬ p.1 = k)

/-- A connected user, `interface User` of `server.ts`.
The `socket` field is a channel handle. -/
structure User where
  id : String
  username : String
  socketId : Nat
  ip : String
  statusOnline : Bool
  isAdmin : Bool
  token : Option String
  lastSeen : Nat
  deriving DecidableEq, Repr

/-- `Array.from(users.entries()).find(([_, u]) => u.socket === socket)`:
first registry entry whose session owns the given channel. -/
def findBySocket : List (String × User) → Nat → Option (String × User)
  | [], _ => none
  | p :: rest, s => if p.2.socketId = s then some p else findBySocket rest s

/-- `interface GameState` of `server.ts`: the shared game session. -/
structure GameState where
  active : Bool
  currentNumber : Option Int
  calledNumbers : List Int
  players : List String
  winner : Option String
  deriving DecidableEq, Repr

/-- The initial `gameState` value. -/
def initialGameState : GameState :=
  { active := false, currentNumber := none, calledNumbers := [], players := [],
    winner := none }

/-- An entry of the `adminTokens` map: `{ userId, expires }`. -/
structure TokenData where
  userId : String
  expires : Nat
  deriving DecidableEq, Repr

/-- Payload of an `rtc_offer` / `rtc_answer` / `ice_candidate` envelope.
`targetUserId` is the addressee; `body` abstracts the remaining fields
(sdp / candidate payload), which the relay never inspects. -/
structure RTCData where
  rtcType : String
  targetUserId : String
  body : String
  deriving DecidableEq, Repr

/-- `interface RTCSignal` of `src/signaling.ts`. -/
structure RTCSignal where
  sigType : String
  target : String
  source : String
  body : String
  deriving DecidableEq, Repr

/-- Outbound envelopes of the server (the JSON messages it `send`s). -/
inductive Envelope where
  | welcome (message : String) (userId : String) (game : GameState)
  | authResponse (success : Bool) (token : Option String) (message : String)
  | commandResponse (success : Bool) (message : String)
  | usersList (users : List (String × String × Bool × String × Bool))
  | usersListBasic (users : List (String × String × Bool × String))
  | rtcSignal (signal : RTCSignal)
  | gameStateMsg (state : GameState)
  | broadcastMsg (message : String)
  | numberCalled (number : Int) (calledNumbers : List Int)
  | winnerAnnounced (id : String) (username : String) (pattern : String)
  | statsUpdate (totalUsers : Nat) (activeGames : Nat) (totalRevenue : Nat)
  | rtc (data : RTCData) (fromUserId : Option String)
  | errorMsg (message : String)
  deriving DecidableEq, Repr

/-- Outcome of one `socket.send` attempt inside a fan-out. -/
inductive SendOutcome where
  | delivered
  | errorLogged
  deriving DecidableEq, Repr

/-- One send performed by a handler: target channel, envelope, outcome. -/
structure SendRecord where
  targetSock : Nat
  env : Envelope
  outcome : SendOutcome
  deriving DecidableEq, Repr

/-- A direct `socket.send(...)` to one channel (no try/catch around it). -/
def sendDirect (sock : Nat) (e : Envelope) : SendRecord :=
  ⟨sock, e, SendOutcome.delivered⟩

/-- `broadcastToAll` of `server.ts`: iterate all users; for each user whose
channel is open, attempt `send` inside `try { ... } catch { log }`, so a
failing send is recorded and the iteration continues with the next user.
Closed channels are skipped entirely. -/
def broadcastToAll (openS failS : Nat → Bool) (users : List (String × User))
    (e : Envelope) : List SendRecord :=
  users.filterMap (fun p =>
    if openS p.2.socketId then
      some ⟨p.2.socketId, e,
        if failS p.2.socketId then SendOutcome.errorLogged
        else SendOutcome.delivered⟩
    else none)

/-- `handleCallNumber` of `server.ts` (identical in both variants), game-state
effect plus broadcast: ignore unless the game is active; append the number and
set `currentNumber` only when it is in `[1, 90]` and not already called. -/
def handleCallNumber (g : GameState) (n : Int) : GameState :=
  if !g.active then g
  else if 1 ≤ n ∧ n ≤ 90 ∧ n ∉ g.calledNumbers then
    { g with calledNumbers := g.calledNumbers ++ [n], currentNumber := some n }
  else g

/-- The broadcast produced by `handleCallNumber` when it mutates the state. -/
def callNumberSends (openS failS : Nat → Bool) (users : List (String × User))
    (g : GameState) (n : Int) : List SendRecord :=
  if !g.active then []
  else if 1 ≤ n ∧ n ≤ 90 ∧ n ∉ g.calledNumbers then
    broadcastToAll openS failS users
      (Envelope.numberCalled n (g.calledNumbers ++ [n]))
  else []

/-- The static admin secret of both server variants. -/
def adminPassword : String := "we17me78"

/-- `verifyAdminPassword` (identical in both variants). -/
def verifyAdminPassword (password : String) : Bool := password = adminPassword

/-- Token lifetime: `24 * 60 * 60 * 1000` milliseconds. -/
def adminTokenTTL : Nat := 24 * 60 * 60 * 1000

/-- The `adminTokens.set(token, { userId, expires: Date.now() + 24h })` step
performed on successful admin authentication (identical in both variants).
`tok` stands for the freshly generated random token value. -/
def issueToken (tokens : List (String × TokenData)) (tok uid : String)
    (now : Nat) : List (String × TokenData) :=
  mapSet tokens tok ⟨uid, now + adminTokenTTL⟩

/-- The token lookup performed at the top of `handleAdminCommand` in
`src/utilshelpers.ts`: `adminTokens.get(token)` followed by the rejection
test `!tokenData || tokenData.expires < Date.now()`.  Returns the token
record exactly when the command is not rejected at this step. -/
def tokenCheck (tokens : List (String × TokenData)) (token : Option String)
    (now : Nat) : Option TokenData :=
  match token with
  | none => none
  | some t =>
    match mapGet tokens t with
    | none => none
    | some td => if td.expires < now then none else some td

/-- A token value passes validation at instant `now`. -/
def validateToken (tokens : List (String × TokenData)) (t : String)
    (now : Nat) : Bool :=
  (tokenCheck tokens (some t) now).isSome

/-- Full admin-authorization check of `handleAdminCommand` in
`src/utilshelpers.ts`: token present and unexpired, and its owner exists in
the registry with `isAdmin` set. -/
def validAdminToken (tokens : List (String × TokenData))
    (users : List (String × User)) (token : Option String) (now : Nat) : Bool :=
  match tokenCheck tokens token now with
  | none => false
  | some td =>
    match mapGet users td.userId with
    | none => false
    | some u => u.isAdmin

/-- The periodic sweep of `server.ts`: delete every token whose
`expires < now`. -/
def sweepTokens (tokens : List (String × TokenData)) (now : Nat) :
    List (String × TokenData) :=
  tokens.filter (fun p => ¬ p.2.expires < now)

/-- The user list sent by `broadcastUserList` / `sendUserList` of
`server.ts`: non-transient users projected to
`(id, username, status, ip, isAdmin)`. -/
def userInfoList (users : List (String × User)) :
    List (String × String × Bool × String × Bool) :=
  (users.filter (fun p => ¬ p.2.id.startsWith "temp_")).map
    (fun p => (p.2.id, p.2.username, p.2.statusOnline, p.2.ip, p.2.isAdmin))

/-- `broadcastUserList` of `server.ts`. -/
def broadcastUserList (openS failS : Nat → Bool)
    (users : List (String × User)) : List SendRecord :=
  broadcastToAll openS failS users (Envelope.usersList (userInfoList users))

/-- `sendUserList` of `server.ts` (direct send to one channel). -/
def sendUserList (users : List (String × User)) (sock : Nat) : SendRecord :=
  sendDirect sock (Envelope.usersList (userInfoList users))

/-- `calculateRevenue` of `server.ts`: 25 ETB per non-transient user. -/
def calculateRevenue (users : List (String × User)) : Nat :=
  (users.filter (fun p => ¬ p.2.id.startsWith "temp_")).length * 25

/-- `handleGetStats` of `server.ts`: a stats snapshot plus the user list,
both sent directly to the requesting channel. -/
def handleGetStats (users : List (String × User)) (g : GameState)
    (sock : Nat) : List SendRecord :=
  [sendDirect sock
      (Envelope.statsUpdate users.length (if g.active then 1 else 0)
        (calculateRevenue users)),
   sendUserList users sock]

/-- `handleUserJoin` (identical in both variants).  `userId` and `username`
are the values after the `data.userId || generated` / `data.username ||
generated` defaulting; `now` is `Date.now()`.  Registers (or overwrites) the
session, sends a welcome with the current game state to the joiner, and
broadcasts the updated presence list. -/
def handleUserJoin (openS failS : Nat → Bool) (users : List (String × User))
    (g : GameState) (sock : Nat) (userId username ip : String) (now : Nat) :
    List (String × User) × List SendRecord :=
  let user : User :=
    { id := userId, username := username, socketId := sock, ip := ip,
      statusOnline := true, isAdmin := false, token := none, lastSeen := now }
  let users2 := mapSet users userId user
  (users2,
   sendDirect sock (Envelope.welcome "Welcome to Assefa Digital Bingo!" userId g)
     :: broadcastUserList openS failS users2)

/-- `handleAdminAuth` of `server.ts` (`src/unnamed/part_000`).  On a correct
password: generate a token (`tok`), build the fresh identity
`admin_${Date.now()}`, DELETE any existing session bound to this channel,
insert a brand-new admin session, record the token, and reply with success
followed by a stats push.  On a wrong password: reject. -/
def handleAdminAuthServer (users : List (String × User))
    (tokens : List (String × TokenData)) (g : GameState) (sock : Nat)
    (password tok : String) (now : Nat) :
    List (String × User) × List (String × TokenData) × List SendRecord :=
  if verifyAdminPassword password then
    let userId := "admin_" ++ toString now
    let users1 :=
      match findBySocket users sock with
      | some p => mapDelete users p.1
      | none => users
    let adminUser : User :=
      { id := userId, username := "Admin", socketId := sock, ip := "admin",
        statusOnline := true, isAdmin := true, token := some tok,
        lastSeen := now }
    let users2 := mapSet users1 userId adminUser
    (users2, issueToken tokens tok userId now,
     sendDirect sock
         (Envelope.authResponse true (some tok) "Authentication successful")
       :: handleGetStats users2 g sock)
  else
    (users, tokens,
     [sendDirect sock (Envelope.authResponse false none "Invalid password")])

/-- Replace the value stored under a key, keeping keys and order (the model
of mutating in place a user object found in the map). -/
def updateValue {α : Type} (m : List (String × α)) (k : String) (v : α) :
    List (String × α) :=
  m.map (fun p => if p.1 = k then (k, v) else p)

/-- `handleAdminAuth` of the `src/utilshelpers.ts` variant.  On a correct
password: if a session already exists for the channel, mutate it in place
(`isAdmin := true`, `token := tok`) and record the token under that
id of that session; otherwise create a new admin session under the fresh identity
`admin_${Date.now()}`.  On a wrong password: reject. -/
def handleAdminAuthHelpers (users : List (String × User))
    (tokens : List (String × TokenData)) (sock : Nat) (password tok : String)
    (now : Nat) :
    List (String × User) × List (String × TokenData) × List SendRecord :=
  if verifyAdminPassword password then
    match findBySocket users sock with
    | none =>
      let userId := "admin_" ++ toString now
      let adminUser : User :=
        { id := userId, username := "Admin", socketId := sock, ip := "admin",
          statusOnline := true, isAdmin := true, token := some tok,
          lastSeen := now }
      (mapSet users userId adminUser, issueToken tokens tok userId now,
       [sendDirect sock
          (Envelope.authResponse true (some tok) "Authentication successful")])
    | some p =>
      let u2 : User := { p.2 with isAdmin := true, token := some tok }
      (updateValue users p.1 u2, issueToken tokens tok p.2.id now,
       [sendDirect sock
          (Envelope.authResponse true (some tok) "Authentication successful")])
  else
    (users, tokens,
     [sendDirect sock (Envelope.authResponse false none "Invalid password")])

/-- The `data.data` payload of an `admin_command` envelope. -/
structure AdminArgs where
  winner : Option String
  message : Option String
  amount : Option Nat
  deriving DecidableEq, Repr

/-- The game-state effect of the admin command switch (identical in both
variants): `start_game`, `pause_game`, `reset_game` mutate the game; every
other command leaves it untouched. -/
def execAdminCommand (g : GameState) (cmd : String) : GameState :=
  if cmd = "start_game" then
    { g with active := true, currentNumber := none, calledNumbers := [],
             winner := none }
  else if cmd = "pause_game" then { g with active := false }
  else if cmd = "reset_game" then
    { g with active := false, currentNumber := none, calledNumbers := [],
             winner := none }
  else g

/-- `broadcastMessage` (both variants): an operator broadcast to all open
channels.  The `timestamp` field of the JSON envelope is elided. -/
def broadcastMessage (openS failS : Nat → Bool) (users : List (String × User))
    (message : String) : List SendRecord :=
  broadcastToAll openS failS users (Envelope.broadcastMsg message)

/-- `broadcastGameState` (both variants). -/
def broadcastGameState (openS failS : Nat → Bool)
    (users : List (String × User)) (g : GameState) : List SendRecord :=
  broadcastToAll openS failS users (Envelope.gameStateMsg g)

/-- `handleAdminCommand` of `server.ts` (`src/unnamed/part_000`).
Authorization is session-based: the channel must belong to a registered user
with `isAdmin`; otherwise reply `success:false` and change nothing.  On
success, run the command switch and always append a `success:true` ack.
The `"Winner announced"` and `"Prize pool updated"` broadcast texts elide
the leading emoji of the source strings. -/
def handleAdminCommandServer (openS failS : Nat → Bool)
    (users : List (String × User)) (g : GameState) (sock : Nat)
    (cmd : String) (args : AdminArgs) : GameState × List SendRecord :=
  match findBySocket users sock with
  | none =>
    (g, [sendDirect sock
          (Envelope.commandResponse false "Unauthorized - Not an admin")])
  | some p =>
    if !p.2.isAdmin then
      (g, [sendDirect sock
            (Envelope.commandResponse false "Unauthorized - Not an admin")])
    else
      let g2 := execAdminCommand g cmd
      let sends :=
        if cmd = "start_game" ∨ cmd = "pause_game" ∨ cmd = "reset_game" then
          broadcastGameState openS failS users g2
        else if cmd = "announce_winner" then
          broadcastMessage openS failS users
            ("Winner announced: " ++ (args.winner.getD "Anonymous") ++ "!")
        else if cmd = "broadcast_message" then
          broadcastMessage openS failS users (args.message.getD "Admin broadcast")
        else if cmd = "update_prize_pool" then
          broadcastMessage openS failS users
            ("Prize pool updated to " ++ toString (args.amount.getD 0) ++ " ETB")
        else if cmd = "get_users" then [sendUserList users sock]
        else []
      (g2,
       sends ++
         [sendDirect sock
           (Envelope.commandResponse true
             ("Command \"" ++ cmd ++ "\" executed successfully"))])

/-- The user list of the `src/utilshelpers.ts` variant: all users (no
transient filter), projected to `(id, username, status, ip)`. -/
def sendUserListBasic (users : List (String × User)) (sock : Nat) : SendRecord :=
  sendDirect sock
    (Envelope.usersListBasic
      (users.map (fun p => (p.2.id, p.2.username, p.2.statusOnline, p.2.ip))))

/-- `handleAdminCommand` of the `src/utilshelpers.ts` variant.
Authorization is token-based: `adminTokens.get(data.token)` must exist and
be unexpired, and its owner must be a registered user with `isAdmin`; each
failing check replies `success:false` and changes nothing.  On success, run
the command switch and append a `success:true` ack. -/
def handleAdminCommandHelpers (openS failS : Nat → Bool)
    (tokens : List (String × TokenData)) (users : List (String × User))
    (g : GameState) (now : Nat) (sock : Nat) (token : Option String)
    (cmd : String) (args : AdminArgs) : GameState × List SendRecord :=
  match tokenCheck tokens token now with
  | none =>
    (g, [sendDirect sock
          (Envelope.commandResponse false "Invalid or expired token")])
  | some td =>
    match mapGet users td.userId with
    | none =>
      (g, [sendDirect sock (Envelope.commandResponse false "Unauthorized")])
    | some u =>
      if !u.isAdmin then
        (g, [sendDirect sock (Envelope.commandResponse false "Unauthorized")])
      else
        let g2 := execAdminCommand g cmd
        let sends :=
          if cmd = "start_game" ∨ cmd = "pause_game" ∨ cmd = "reset_game" then
            broadcastGameState openS failS users g2
          else if cmd = "broadcast_message" then
            broadcastMessage openS failS users (args.message.getD "Admin broadcast")
          else if cmd = "get_users" then [sendUserListBasic users sock]
          else []
        (g2,
         sends ++
           [sendDirect sock
             (Envelope.commandResponse true
               ("Command \"" ++ cmd ++ "\" executed"))])

/-- `handleRTCMessage` (identical in both variants): look up the target by
identity; if present and its channel is open, forward the envelope with
`fromUserId` injected (the registry key of the sender, if any); otherwise send
nothing to anyone. -/
def handleRTCMessage (openS : Nat → Bool) (users : List (String × User))
    (sock : Nat) (d : RTCData) : List SendRecord :=
  match mapGet users d.targetUserId with
  | none => []
  | some tu =>
    if openS tu.socketId then
      [sendDirect tu.socketId
        (Envelope.rtc d (Option.map Prod.fst (findBySocket users sock)))]
    else []

/-- `SignalingController.handleSignal` of `src/signaling.ts`: forward the
signal to the connection of the target when it is registered and open; otherwise
send nothing. -/
def handleSignal (openS : Nat → Bool) (connections : List (String × Nat))
    (signal : RTCSignal) : List SendRecord :=
  match mapGet connections signal.target with
  | none => []
  | some ws =>
    if openS ws then [sendDirect ws (Envelope.rtcSignal signal)] else []

/-- `handleAnnounceWin` (identical in both variants): resolve the session of
the sender by channel; if it exists and `data.pattern` is truthy (present and
non-empty), set the winner to the id of the sender and broadcast a
`winner_announced` envelope to all; otherwise do nothing. -/
def handleAnnounceWin (openS failS : Nat → Bool)
    (users : List (String × User)) (g : GameState) (sock : Nat)
    (pat : Option String) : GameState × List SendRecord :=
  match findBySocket users sock with
  | none => (g, [])
  | some p =>
    match pat with
    | none => (g, [])
    | some s =>
      if s.isEmpty then (g, [])
      else
        ({ g with winner := some p.2.id },
         broadcastToAll openS failS users
           (Envelope.winnerAnnounced p.2.id p.2.username s))

/-- `AdminController.verifyToken` of `src/admin.ts`. -/
def verifyToken (_token : String) : Bool := true

/-- The GameSession invariant of the specification: `calledNumbers` has no
duplicates, every element is in `[1, 90]`, and `currentNumber`, when
present, is the last element appended to `calledNumbers`. -/
def gameInv (g : GameState) : Prop :=
  g.calledNumbers.Nodup ∧
  (∀ x ∈ g.calledNumbers, 1 ≤ x ∧ x ≤ 90) ∧
  (∀ v, g.currentNumber = some v → g.calledNumbers.getLast? = some v)

/-- Is an outbound envelope the error envelope of the server? -/
def isErrorEnv : Envelope → Bool
  | Envelope.errorMsg _ => true
  | _ => false

/-- An active game with nothing called yet (the state right after
`start_game`). -/
def activeEmptyGame : GameState :=
  { active := true, currentNumber := none, calledNumbers := [], players := [],
    winner := none }

/-- A guest session used as concrete test data. -/
def mkGuest (id : String) (sock : Nat) : User :=
  { id := id, username := "Player", socketId := sock, ip := "ip",
    statusOnline := true, isAdmin := false, token := none, lastSeen := 0 }

theorem mapGet_mapSet_self {α : Type} (m : List (String × α)) (k : String)
    (v : α) : mapGet (mapSet m k v) k = some v := by
  induction m with
  | nil => simp [mapGet, mapSet]
  | cons p rest ih =>
    by_cases h : p.1 = k
    · simp [mapSet, h, mapGet]
    · simp [mapSet, h, mapGet, ih]

theorem mapGet_mapSet_ne {α : Type} (m : List (String × α)) (k k' : String)
    (v : α) (h : ¬ k' = k) : mapGet (mapSet m k v) k' = mapGet m k' := by
  induction m with
  | nil =>
    simp [mapGet, mapSet]
    intro hkk
    exact absurd hkk.symm h
  | cons p rest ih =>
    have hkk : ¬ k = k' := fun hh => h hh.symm
    by_cases hp : p.1 = k
    · simp [mapSet, hp, mapGet, hkk]
    · by_cases hp' : p.1 = k'
      · simp [mapSet, hp, mapGet, hp', h]
      · simp [mapSet, hp, mapGet, hp', ih]

theorem mem_broadcastToAll (openS failS : Nat → Bool)
    (users : List (String × User)) (e : Envelope) (p : String × User)
    (hp : p ∈ users) (ho : openS p.2.socketId = true) :
    (⟨p.2.socketId, e,
       if failS p.2.socketId then SendOutcome.errorLogged
       else SendOutcome.delivered⟩ : SendRecord) ∈
      broadcastToAll openS failS users e := by
  refine List.mem_filterMap.mpr ⟨p, hp, ?_⟩
  simp [ho]

theorem env_of_mem_broadcastToAll (openS failS : Nat → Bool)
    (users : List (String × User)) (e : Envelope) (r : SendRecord)
    (hr : r ∈ broadcastToAll openS failS users e) : r.env = e := by
  rcases List.mem_filterMap.mp hr with ⟨p, _, hpe⟩
  by_cases ho : openS p.2.socketId
  · simp [ho] at hpe
    rw [← hpe]
  · simp [ho] at hpe

theorem handleCallNumber_inactive (g : GameState) (n : Int)
    (h : g.active = false) : handleCallNumber g n = g := by
  simp [handleCallNumber, h]

theorem handleCallNumber_invalid (g : GameState) (n : Int)
    (h : ¬ (1 ≤ n ∧ n ≤ 90 ∧ n ∉ g.calledNumbers)) :
    handleCallNumber g n = g := by
  by_cases ha : g.active
  · simp [handleCallNumber, ha, h]
  · simp [handleCallNumber, ha]

theorem handleCallNumber_valid (g : GameState) (n : Int)
    (ha : g.active = true) (h1 : 1 ≤ n) (h2 : n ≤ 90)
    (h3 : n ∉ g.calledNumbers) :
    handleCallNumber g n =
      { g with calledNumbers := g.calledNumbers ++ [n],
               currentNumber := some n } := by
  simp [handleCallNumber, ha, h1, h2, h3]

/-- C2: `callValue(n)` mutates `calledValues` only when the game is active,
`1 ≤ n ≤ 90`, and `n` is not already called; it is idempotent under duplicate
submission (a second identical call changes nothing, so `calledValues` holds
`n` exactly once); an out-of-range call, an inactive-game call, or a
duplicate leaves `calledValues` unchanged. -/
theorem callValue_idempotent_guarded (g : GameState) (n : Int) :
    handleCallNumber (handleCallNumber g n) n = handleCallNumber g n ∧
    ((handleCallNumber g n).calledNumbers ≠ g.calledNumbers →
      g.active = true ∧ 1 ≤ n ∧ n ≤ 90 ∧ n ∉ g.calledNumbers) ∧
    ((g.active = false ∨ n < 1 ∨ 90 < n ∨ n ∈ g.calledNumbers) →
      (handleCallNumber g n).calledNumbers = g.calledNumbers) ∧
    (g.active = true → 1 ≤ n → n ≤ 90 → n ∉ g.calledNumbers →
      List.count n (handleCallNumber (handleCallNumber g n) n).calledNumbers
        = 1) := by
  have hidem : handleCallNumber (handleCallNumber g n) n = handleCallNumber g n := by
    by_cases ha : g.active = true
    · by_cases hg : 1 ≤ n ∧ n ≤ 90 ∧ n ∉ g.calledNumbers
      · obtain ⟨h1, h2, h3⟩ := hg
        rw [handleCallNumber_valid g n ha h1 h2 h3]
        apply handleCallNumber_invalid
        intro hcon
        exact hcon.2.2 (by simp)
      · have he := handleCallNumber_invalid g n hg
        rw [he]
        exact he
    · have ha' : g.active = false := by
        simpa using ha
      have he := handleCallNumber_inactive g n ha'
      rw [he]
      exact he
  refine ⟨hidem, ?_, ?_, ?_⟩
  · intro hne
    by_cases ha : g.active = true
    · by_cases hg : 1 ≤ n ∧ n ≤ 90 ∧ n ∉ g.calledNumbers
      · exact ⟨ha, hg.1, hg.2.1, hg.2.2⟩
      · exact absurd (by rw [handleCallNumber_invalid g n hg]) hne
    · have ha' : g.active = false := by
        simpa using ha
      exact absurd (by rw [handleCallNumber_inactive g n ha']) hne
  · intro hcase
    rcases hcase with h | h | h | h
    · rw [handleCallNumber_inactive g n h]
    · rw [handleCallNumber_invalid g n (fun hc => absurd hc.1 (not_le.mpr h))]
    · rw [handleCallNumber_invalid g n (fun hc => absurd hc.2.1 (not_le.mpr h))]
    · rw [handleCallNumber_invalid g n (fun hc => hc.2.2 h)]
  · intro ha h1 h2 h3
    rw [hidem, handleCallNumber_valid g n ha h1 h2 h3]
    simp [List.count_append, List.count_eq_zero.mpr h3]

/-- Witness for C2 at the concrete active empty game and `n = 7`. -/
theorem callValue_witness :
    activeEmptyGame.active = true ∧ (1 : Int) ≤ 7 ∧ (7 : Int) ≤ 90 ∧
    (7 : Int) ∉ activeEmptyGame.calledNumbers ∧
    List.count 7
      (handleCallNumber (handleCallNumber activeEmptyGame 7) 7).calledNumbers
        = 1 :=
  ⟨rfl, by decide, by decide, by decide,
   (callValue_idempotent_guarded activeEmptyGame 7).2.2.2 rfl (by decide)
     (by decide) (by decide)⟩

/-- C3: every game-state transition — the admin command switch
(`start_game` / `pause_game` / `reset_game`, and the commands that leave the
game untouched), `callValue`, and `announceWin` — preserves the GameSession
invariant: `calledNumbers` is duplicate-free with every element in
`[1, 90]`, and `currentNumber`, when present, is the last element appended
to `calledNumbers`. -/
theorem gameInv_preserved (g : GameState) (h : gameInv g) :
    (∀ cmd, gameInv (execAdminCommand g cmd)) ∧
    (∀ n, gameInv (handleCallNumber g n)) ∧
    (∀ openS failS users sock pat,
      gameInv (handleAnnounceWin openS failS users g sock pat).1) := by
  refine ⟨?_, ?_, ?_⟩
  · intro cmd
    unfold execAdminCommand
    split_ifs
    · simp [gameInv]
    · exact h
    · simp [gameInv]
    · exact h
  · intro n
    by_cases ha : g.active = true
    · by_cases hg : 1 ≤ n ∧ n ≤ 90 ∧ n ∉ g.calledNumbers
      · obtain ⟨h1, h2, h3⟩ := hg
        rw [handleCallNumber_valid g n ha h1 h2 h3]
        refine ⟨?_, ?_, ?_⟩
        · simp [List.nodup_append, h.1, h3]
        · intro x hx
          rcases List.mem_append.mp hx with hx | hx
          · exact h.2.1 x hx
          · rw [List.mem_singleton.mp hx]
            exact ⟨h1, h2⟩
        · intro v hv
          have hvn : v = n := by
            have := hv
            simp at this
            exact this.symm
          rw [hvn, List.getLast?_append_cons]
          rfl
      · rw [handleCallNumber_invalid g n hg]
        exact h
    · have ha' : g.active = false := by
        simpa using ha
      rw [handleCallNumber_inactive g n ha']
      exact h
  · intro openS failS users sock pat
    unfold handleAnnounceWin
    rcases findBySocket users sock with _ | p
    · exact h
    · rcases pat with _ | s
      · exact h
      · by_cases hs : s.isEmpty
        · simp [hs]
          exact h
        · simp [hs]
          exact h

/-- Witness for C3 at the initial game state. -/
theorem gameInv_witness :
    gameInv initialGameState ∧
    gameInv (execAdminCommand initialGameState "start_game") ∧
    gameInv (handleCallNumber initialGameState 7) :=
  have hinv : gameInv initialGameState := by
    simp [gameInv, initialGameState]
  ⟨hinv, (gameInv_preserved initialGameState hinv).1 "start_game",
   (gameInv_preserved initialGameState hinv).2.1 7⟩

/-- C1 counterexample: the registry holds `alice` bound to live channel 1;
a `user_join` with identity `alice` arriving on channel 2 silently replaces
the binding (the session now owns channel 2) and no error envelope is sent —
there is no `DuplicateIdentity` rejection. -/
theorem join_duplicate_counterexample :
    (handleUserJoin (fun _ => true) (fun _ => false)
        [("alice", mkGuest "alice" 1)] initialGameState 2 "alice" "Mallory"
        "ip2" 5).1
      = [("alice",
          { id := "alice", username := "Mallory", socketId := 2, ip := "ip2",
            statusOnline := true, isAdmin := false, token := none,
            lastSeen := 5 })] ∧
    ((handleUserJoin (fun _ => true) (fun _ => false)
        [("alice", mkGuest "alice" 1)] initialGameState 2 "alice" "Mallory"
        "ip2" 5).2.all (fun r => !(isErrorEnv r.env))) = true := by
  decide

/-- C1 (amended): `user_join` never rejects a duplicate identity; it
unconditionally (re)binds the identity to the joining channel — replacing
any existing session under that identity — and sends a welcome plus a
presence broadcast, none of which is an error envelope. -/
theorem join_overwrites_registration (openS failS : Nat → Bool)
    (users : List (String × User)) (g : GameState) (sock : Nat)
    (userId username ip : String) (now : Nat) :
    mapGet (handleUserJoin openS failS users g sock userId username ip now).1
        userId
      = some { id := userId, username := username, socketId := sock, ip := ip,
               statusOnline := true, isAdmin := false, token := none,
               lastSeen := now } ∧
    ((handleUserJoin openS failS users g sock userId username ip now).2.all
      (fun r => !(isErrorEnv r.env))) = true := by
  constructor
  · simp only [handleUserJoin]
    exact mapGet_mapSet_self users userId _
  · simp only [handleUserJoin, List.all_cons, Bool.and_eq_true]
    constructor
    · simp [sendDirect, isErrorEnv]
    · rw [List.all_eq_true]
      intro r hr
      rw [broadcastUserList] at hr
      have henv := env_of_mem_broadcastToAll _ _ _ _ r hr
      rw [henv]
      simp [isErrorEnv]

/-- C4 counterexample: issue `tokA` and then `tokB` to the same owner
`admin_1`; the prior token `tokA` still validates — a second issuance does
not supersede the first. -/
theorem issueToken_no_supersede_counterexample :
    validateToken
        (issueToken (issueToken [] "tokA" "admin_1" 0) "tokB" "admin_1" 0)
        "tokA" 5 = true ∧
    validateToken
        (issueToken (issueToken [] "tokA" "admin_1" 0) "tokB" "admin_1" 0)
        "tokB" 5 = true := by
  decide

/-- C4 (amended): a token issued by `issueToken` validates at every instant
up to its expiry (`issue time + 24h`) and fails validation strictly after
it; but issuing a further token leaves the validation of every other token
value unchanged — the prior token of the same owner is not superseded and
remains valid until its own expiry. -/
theorem issueToken_validate_lifecycle (tokens : List (String × TokenData))
    (tok uid : String) (now now2 : Nat) :
    (now2 ≤ now + adminTokenTTL →
      validateToken (issueToken tokens tok uid now) tok now2 = true) ∧
    (now + adminTokenTTL < now2 →
      validateToken (issueToken tokens tok uid now) tok now2 = false) ∧
    (∀ t2, ¬ t2 = tok →
      validateToken (issueToken tokens tok uid now) t2 now2
        = validateToken tokens t2 now2) := by
  refine ⟨?_, ?_, ?_⟩
  · intro hle
    have hget := mapGet_mapSet_self tokens tok
      (⟨uid, now + adminTokenTTL⟩ : TokenData)
    simp [validateToken, tokenCheck, issueToken, hget, Nat.not_lt.mpr hle]
  · intro hlt
    have hget := mapGet_mapSet_self tokens tok
      (⟨uid, now + adminTokenTTL⟩ : TokenData)
    simp [validateToken, tokenCheck, issueToken, hget, hlt]
  · intro t2 hne
    have hget := mapGet_mapSet_ne tokens tok t2
      (⟨uid, now + adminTokenTTL⟩ : TokenData) hne
    simp [validateToken, tokenCheck, issueToken, hget]

/-- Witness for C4 (amended) at a concrete issuance. -/
theorem issueToken_validate_witness :
    (5 ≤ 5 + adminTokenTTL ∧
      validateToken (issueToken [] "tokA" "admin_1" 5) "tokA" 5 = true) ∧
    (5 + adminTokenTTL < 5 + adminTokenTTL + 1 ∧
      validateToken (issueToken [] "tokA" "admin_1" 5) "tokA"
        (5 + adminTokenTTL + 1) = false) :=
  ⟨⟨by simp,
    (issueToken_validate_lifecycle [] "tokA" "admin_1" 5 5).1 (by simp)⟩,
   ⟨by simp,
    (issueToken_validate_lifecycle [] "tokA" "admin_1" 5
      (5 + adminTokenTTL + 1)).2.1 (by simp)⟩⟩

/-- C5 counterexample (the `server.ts` variant of `handleAdminCommand`): the
sender presents token `tokOld`, which EXPIRED at instant 10 (now = 20), so
there is no valid admin authorization in the token sense
(`validAdminToken = false`); yet because this variant never reads
`data.token` — it only checks that the channel is bound to an `isAdmin`
session — the `start_game` command executes: the game becomes active and the
sender receives `commandResponse{success:true}`. -/
theorem expiredToken_startGame_counterexample :
    validAdminToken [("tokOld", ⟨"admin_1", 10⟩)]
        [("admin_1",
          { id := "admin_1", username := "Admin", socketId := 1,
            ip := "admin", statusOnline := true, isAdmin := true,
            token := some "tokOld", lastSeen := 0 })]
        (some "tokOld") 20 = false ∧
    (handleAdminCommandServer (fun _ => true) (fun _ => false)
        [("admin_1",
          { id := "admin_1", username := "Admin", socketId := 1,
            ip := "admin", statusOnline := true, isAdmin := true,
            token := some "tokOld", lastSeen := 0 })]
        initialGameState 1 "start_game" ⟨none, none, none⟩).1.active = true ∧
    sendDirect 1
        (Envelope.commandResponse true
          "Command \"start_game\" executed successfully")
      ∈ (handleAdminCommandServer (fun _ => true) (fun _ => false)
          [("admin_1",
            { id := "admin_1", username := "Admin", socketId := 1,
              ip := "admin", statusOnline := true, isAdmin := true,
              token := some "tokOld", lastSeen := 0 })]
          initialGameState 1 "start_game" ⟨none, none, none⟩).2 := by
  decide

/-- C5 (amended): the token-based `handleAdminCommand` of `utilshelpers.ts`
satisfies the claim: a sender whose token is missing, unknown, expired, or
not owned by a registered admin session gets `commandResponse` with
`success = false` and the game state is unchanged (in particular `isActive`
stays `false`).  The `handleAdminCommand` of `server.ts`, however, ignores
`data.token` entirely: it rejects (with `success = false`, game unchanged)
exactly the senders whose channel is not bound to an `isAdmin` session, and
for a sender whose session is `isAdmin` it starts the game no matter what
token was presented — its authorization is independent of the token map. -/
theorem unauthorized_command_rejected (openS failS : Nat → Bool)
    (tokens : List (String × TokenData)) (users : List (String × User))
    (g : GameState) (now sock : Nat) (token : Option String)
    (args : AdminArgs) :
    (validAdminToken tokens users token now = false →
      (handleAdminCommandHelpers openS failS tokens users g now sock token
          "start_game" args).1 = g ∧
      ∃ m, (handleAdminCommandHelpers openS failS tokens users g now sock token
          "start_game" args).2
        = [sendDirect sock (Envelope.commandResponse false m)]) ∧
    ((∀ p, findBySocket users sock = some p → p.2.isAdmin = false) →
      (handleAdminCommandServer openS failS users g sock "start_game" args).1
        = g ∧
      (handleAdminCommandServer openS failS users g sock "start_game" args).2
        = [sendDirect sock
            (Envelope.commandResponse false "Unauthorized - Not an admin")]) ∧
    (∀ p, findBySocket users sock = some p → p.2.isAdmin = true →
      (handleAdminCommandServer openS failS users g sock "start_game"
          args).1.active = true) := by
  refine ⟨?_, ?_, ?_⟩
  · intro hval
    unfold validAdminToken at hval
    rcases htc : tokenCheck tokens token now with _ | td
    · have hres : handleAdminCommandHelpers openS failS tokens users g now sock
          token "start_game" args
          = (g, [sendDirect sock
              (Envelope.commandResponse false "Invalid or expired token")]) := by
        unfold handleAdminCommandHelpers
        rw [htc]
      rw [hres]
      exact ⟨rfl, "Invalid or expired token", rfl⟩
    · rw [htc] at hval
      rcases hu : mapGet users td.userId with _ | u
      · have hres : handleAdminCommandHelpers openS failS tokens users g now sock
            token "start_game" args
            = (g, [sendDirect sock
                (Envelope.commandResponse false "Unauthorized")]) := by
          unfold handleAdminCommandHelpers
          rw [htc]
          simp [hu]
        rw [hres]
        exact ⟨rfl, "Unauthorized", rfl⟩
      · simp [hu] at hval
        have hres : handleAdminCommandHelpers openS failS tokens users g now sock
            token "start_game" args
            = (g, [sendDirect sock
                (Envelope.commandResponse false "Unauthorized")]) := by
          unfold handleAdminCommandHelpers
          rw [htc]
          simp [hu, hval]
        rw [hres]
        exact ⟨rfl, "Unauthorized", rfl⟩
  · intro hsrv
    unfold handleAdminCommandServer
    rcases hf : findBySocket users sock with _ | p
    · simp
    · have hpa := hsrv p hf
      simp [hpa]
  · intro p hf hadm
    unfold handleAdminCommandServer
    rw [hf]
    simp [hadm, execAdminCommand]

/-- Witness for C5 (amended): a missing token is rejected by both variants
when no admin session is bound; an `isAdmin` session on the channel makes
the `server.ts` variant start the game with no token presented at all. -/
theorem unauthorized_command_witness :
    validAdminToken [] [] none 0 = false ∧
    (handleAdminCommandHelpers (fun _ => true) (fun _ => false) [] []
        initialGameState 0 1 none "start_game" ⟨none, none, none⟩).1
      = initialGameState ∧
    (handleAdminCommandServer (fun _ => true) (fun _ => false) []
        initialGameState 1 "start_game" ⟨none, none, none⟩).1
      = initialGameState ∧
    findBySocket [("admin_1",
        { id := "admin_1", username := "Admin", socketId := 1, ip := "admin",
          statusOnline := true, isAdmin := true, token := some "tokOld",
          lastSeen := 0 })] 1
      = some ("admin_1",
          { id := "admin_1", username := "Admin", socketId := 1,
            ip := "admin", statusOnline := true, isAdmin := true,
            token := some "tokOld", lastSeen := 0 }) ∧
    (handleAdminCommandServer (fun _ => true) (fun _ => false)
        [("admin_1",
          { id := "admin_1", username := "Admin", socketId := 1,
            ip := "admin", statusOnline := true, isAdmin := true,
            token := some "tokOld", lastSeen := 0 })]
        initialGameState 1 "start_game" ⟨none, none, none⟩).1.active = true :=
  ⟨by decide,
   ((unauthorized_command_rejected (fun _ => true) (fun _ => false) [] []
        initialGameState 0 1 none ⟨none, none, none⟩).1 (by decide)).1,
   ((unauthorized_command_rejected (fun _ => true) (fun _ => false) [] []
        initialGameState 0 1 none ⟨none, none, none⟩).2.1
      (fun p h => Option.noConfusion h)).1,
   by decide,
   (unauthorized_command_rejected (fun _ => true) (fun _ => false) []
        [("admin_1",
          { id := "admin_1", username := "Admin", socketId := 1,
            ip := "admin", statusOnline := true, isAdmin := true,
            token := some "tokOld", lastSeen := 0 })]
        initialGameState 0 1 none ⟨none, none, none⟩).2.2
      ("admin_1",
        { id := "admin_1", username := "Admin", socketId := 1, ip := "admin",
          statusOnline := true, isAdmin := true, token := some "tokOld",
          lastSeen := 0 }) (by decide) rfl⟩

/-- C6: the RTC relay forwards the envelope verbatim (with `fromUserId`
injected) to the channel of the target exactly when the target identity is
registered and its channel is open; when the target is absent or its channel
is not open, nothing at all is sent — in particular no error envelope goes
back to the sender. -/
theorem rtc_relay_exact (openS : Nat → Bool) (users : List (String × User))
    (sock : Nat) (d : RTCData) :
    (∀ tu, mapGet users d.targetUserId = some tu → openS tu.socketId = true →
      handleRTCMessage openS users sock d
        = [sendDirect tu.socketId
            (Envelope.rtc d (Option.map Prod.fst (findBySocket users sock)))]) ∧
    (mapGet users d.targetUserId = none →
      handleRTCMessage openS users sock d = []) ∧
    (∀ tu, mapGet users d.targetUserId = some tu → openS tu.socketId = false →
      handleRTCMessage openS users sock d = []) := by
  refine ⟨?_, ?_, ?_⟩
  · intro tu hget ho
    unfold handleRTCMessage
    rw [hget]
    simp [ho]
  · intro hget
    unfold handleRTCMessage
    rw [hget]
  · intro tu hget ho
    unfold handleRTCMessage
    rw [hget]
    simp [ho]

/-- Witness for C6: `alice` (channel 1) sends an offer to registered,
open `bob` (channel 2); the envelope is forwarded once with
`fromUserId = alice`. -/
theorem rtc_relay_witness :
    mapGet [("alice", mkGuest "alice" 1), ("bob", mkGuest "bob" 2)] "bob"
      = some (mkGuest "bob" 2) ∧
    handleRTCMessage (fun _ => true)
        [("alice", mkGuest "alice" 1), ("bob", mkGuest "bob" 2)] 1
        ⟨"rtc_offer", "bob", "sdp"⟩
      = [sendDirect 2
          (Envelope.rtc ⟨"rtc_offer", "bob", "sdp"⟩ (some "alice"))] :=
  ⟨by decide,
   (rtc_relay_exact (fun _ => true)
      [("alice", mkGuest "alice" 1), ("bob", mkGuest "bob" 2)] 1
      ⟨"rtc_offer", "bob", "sdp"⟩).1 (mkGuest "bob" 2) (by decide) rfl⟩

/-- C7: `broadcastToAll` attempts a send to every user whose channel is
open; the attempt on an open channel is recorded as delivered when the send
does not throw and as a logged error when it does — so a closed or failing
channel never prevents the delivery records of the remaining users. -/
theorem broadcast_isolates_failures (openS failS : Nat → Bool)
    (users : List (String × User)) (e : Envelope) :
    ∀ p ∈ users, openS p.2.socketId = true →
      (⟨p.2.socketId, e,
        if failS p.2.socketId then SendOutcome.errorLogged
        else SendOutcome.delivered⟩ : SendRecord)
        ∈ broadcastToAll openS failS users e := by
  intro p hp ho
  exact mem_broadcastToAll openS failS users e p hp ho

/-- Witness for C7: three users — channel 1 open, channel 2 closed,
channel 3 open but its send throws.  Delivery to channel 1 completes and
the failing send on channel 3 is attempted and logged. -/
theorem broadcast_isolates_witness :
    ("a", mkGuest "a" 1)
        ∈ [("a", mkGuest "a" 1), ("b", mkGuest "b" 2), ("c", mkGuest "c" 3)] ∧
    (⟨1, Envelope.broadcastMsg "hi", SendOutcome.delivered⟩ : SendRecord)
      ∈ broadcastToAll (fun s => !(s == 2)) (fun s => s == 3)
          [("a", mkGuest "a" 1), ("b", mkGuest "b" 2), ("c", mkGuest "c" 3)]
          (Envelope.broadcastMsg "hi") ∧
    (⟨3, Envelope.broadcastMsg "hi", SendOutcome.errorLogged⟩ : SendRecord)
      ∈ broadcastToAll (fun s => !(s == 2)) (fun s => s == 3)
          [("a", mkGuest "a" 1), ("b", mkGuest "b" 2), ("c", mkGuest "c" 3)]
          (Envelope.broadcastMsg "hi") :=
  ⟨by decide,
   broadcast_isolates_failures (fun s => !(s == 2)) (fun s => s == 3)
     [("a", mkGuest "a" 1), ("b", mkGuest "b" 2), ("c", mkGuest "c" 3)]
     (Envelope.broadcastMsg "hi") ("a", mkGuest "a" 1) (by decide) rfl,
   broadcast_isolates_failures (fun s => !(s == 2)) (fun s => s == 3)
     [("a", mkGuest "a" 1), ("b", mkGuest "b" 2), ("c", mkGuest "c" 3)]
     (Envelope.broadcastMsg "hi") ("c", mkGuest "c" 3) (by decide) rfl⟩

theorem findBySocket_mem (m : List (String × User)) (s : Nat)
    (p : String × User) (h : findBySocket m s = some p) : p ∈ m := by
  induction m with
  | nil => exact absurd h (by simp [findBySocket])
  | cons q rest ih =>
    by_cases hq : q.2.socketId = s
    · simp [findBySocket, hq] at h
      simp [← h]
    · simp [findBySocket, hq] at h
      exact List.mem_cons_of_mem q (ih h)

theorem mapGet_of_nodupKeys_mem {α : Type} (m : List (String × α))
    (k : String) (v : α) (hkeys : (m.map Prod.fst).Nodup)
    (hmem : (k, v) ∈ m) : mapGet m k = some v := by
  induction m with
  | nil => exact absurd hmem (by simp)
  | cons q rest ih =>
    rcases List.mem_cons.mp hmem with hq | hq
    · rw [← hq]
      simp [mapGet]
    · have hk : k ∈ rest.map Prod.fst :=
        List.mem_map.mpr ⟨(k, v), hq, rfl⟩
      have hq1 : ¬ q.1 = k := by
        intro he
        exact (List.nodup_cons.mp hkeys).1 (he ▸ hk)
      simp [mapGet, hq1]
      exact ih (List.nodup_cons.mp hkeys).2 hq

theorem mapGet_updateValue_self {α : Type} (m : List (String × α))
    (k : String) (v w : α) (h : mapGet m k = some w) :
    mapGet (updateValue m k v) k = some v := by
  induction m with
  | nil => exact absurd h (by simp [mapGet])
  | cons q rest ih =>
    by_cases hq : q.1 = k
    · simp [updateValue, mapGet, hq]
    · simp [mapGet, hq] at h
      simp [updateValue, mapGet, hq] at ih ⊢
      exact ih h

theorem mapGet_updateValue_ne {α : Type} (m : List (String × α))
    (k k' : String) (v : α) (h : ¬ k' = k) :
    mapGet (updateValue m k v) k' = mapGet m k' := by
  induction m with
  | nil => simp [updateValue, mapGet]
  | cons q rest ih =>
    by_cases hq : q.1 = k
    · have : ¬ k = k' := fun he => h he.symm
      simp [updateValue, mapGet, hq, this]
      simp [updateValue] at ih
      exact ih
    · by_cases hq' : q.1 = k'
      · simp [updateValue, mapGet, hq, hq', h]
      · simp [updateValue, mapGet, hq, hq']
        simp [updateValue] at ih
        exact ih

theorem updateValue_keys {α : Type} (m : List (String × α)) (k : String)
    (v : α) : (updateValue m k v).map Prod.fst = m.map Prod.fst := by
  induction m with
  | nil => simp [updateValue]
  | cons q rest ih =>
    have hfst : (if q.1 = k then (k, v) else q).1 = q.1 := by
      by_cases hq : q.1 = k
      · simp [hq]
      · simp [hq]
    show (if q.1 = k then (k, v) else q).1
          :: (updateValue rest k v).map Prod.fst
        = q.1 :: rest.map Prod.fst
    rw [hfst, ih]

/-- C8 counterexample (the `server.ts` variant of `handleAdminAuth`): the
channel already has session `u1`; after a successful authenticate the `u1`
session is GONE and a brand-new admin session `admin_5` exists — a new
session is created and the identity changes. -/
theorem adminAuth_replaces_session_counterexample :
    mapGet (handleAdminAuthServer [("u1", mkGuest "u1" 1)] []
        initialGameState 1 "we17me78" "tokA" 5).1 "u1" = none ∧
    mapGet (handleAdminAuthServer [("u1", mkGuest "u1" 1)] []
        initialGameState 1 "we17me78" "tokA" 5).1 ("admin_" ++ toString 5)
      = some { id := "admin_" ++ toString 5, username := "Admin",
               socketId := 1, ip := "admin", statusOnline := true,
               isAdmin := true, token := some "tokA", lastSeen := 5 } := by
  decide

/-- C8 (amended): in the `utilshelpers.ts` variant of `handleAdminAuth`, a
successful authenticate over a channel that already has a session creates no
new session: the session keeps its key and identity, only `isAdmin` and
`token` change, the key sequence of the registry is unchanged, every other
entry is untouched, and the fresh token is recorded under the session id.  (In
the `server.ts` variant, by contrast, the existing session is deleted and
replaced by a fresh admin identity — see the counterexample.) -/
theorem adminAuth_upgrades_existing (users : List (String × User))
    (tokens : List (String × TokenData)) (sock : Nat) (tok : String)
    (now : Nat) (uid : String) (u : User)
    (hkeys : (users.map Prod.fst).Nodup)
    (hfind : findBySocket users sock = some (uid, u)) :
    (handleAdminAuthHelpers users tokens sock adminPassword tok now).1
      = updateValue users uid { u with isAdmin := true, token := some tok } ∧
    mapGet (handleAdminAuthHelpers users tokens sock adminPassword tok now).1
        uid
      = some { u with isAdmin := true, token := some tok } ∧
    (∀ k, ¬ k = uid →
      mapGet (handleAdminAuthHelpers users tokens sock adminPassword tok
          now).1 k
        = mapGet users k) ∧
    ((handleAdminAuthHelpers users tokens sock adminPassword tok now).1).map
        Prod.fst
      = users.map Prod.fst ∧
    (handleAdminAuthHelpers users tokens sock adminPassword tok now).2.1
      = issueToken tokens tok u.id now := by
  have h1 : handleAdminAuthHelpers users tokens sock adminPassword tok now
      = (updateValue users uid { u with isAdmin := true, token := some tok },
         issueToken tokens tok u.id now,
         [sendDirect sock
           (Envelope.authResponse true (some tok)
             "Authentication successful")]) := by
    unfold handleAdminAuthHelpers
    rw [hfind]
    simp [verifyAdminPassword]
  have hget : mapGet users uid = some u :=
    mapGet_of_nodupKeys_mem users uid u hkeys
      (findBySocket_mem users sock (uid, u) hfind)
  refine ⟨by rw [h1], ?_, ?_, ?_, by rw [h1]⟩
  · rw [h1]
    exact mapGet_updateValue_self users uid _ u hget
  · intro k hk
    rw [h1]
    exact mapGet_updateValue_ne users uid k _ hk
  · rw [h1]
    exact updateValue_keys users uid _

/-- Witness for C8 (amended) at a one-user registry. -/
theorem adminAuth_upgrades_witness :
    (([("u1", mkGuest "u1" 1)].map Prod.fst).Nodup) ∧
    findBySocket [("u1", mkGuest "u1" 1)] 1 = some ("u1", mkGuest "u1" 1) ∧
    mapGet (handleAdminAuthHelpers [("u1", mkGuest "u1" 1)] [] 1
        adminPassword "tokZ" 9).1 "u1"
      = some { mkGuest "u1" 1 with isAdmin := true, token := some "tokZ" } :=
  ⟨by decide, by decide,
   (adminAuth_upgrades_existing [("u1", mkGuest "u1" 1)] [] 1 "tokZ" 9 "u1"
      (mkGuest "u1" 1) (by decide) (by decide)).2.1⟩

/-- C9 counterexample: `bob` is registered (channel 1 resolves), yet an
`announce_win` envelope whose `pattern` is missing — or present but empty —
sets no winner and broadcasts nothing: the handler is conditional on a
truthy `data.pattern`, so it is not unconditional for every resolved
sender. -/
theorem announceWin_pattern_gate_counterexample :
    (handleAnnounceWin (fun _ => true) (fun _ => false)
        [("bob", mkGuest "bob" 1)] activeEmptyGame 1 none).1.winner = none ∧
    (handleAnnounceWin (fun _ => true) (fun _ => false)
        [("bob", mkGuest "bob" 1)] activeEmptyGame 1 none).2 = [] ∧
    (handleAnnounceWin (fun _ => true) (fun _ => false)
        [("bob", mkGuest "bob" 1)] activeEmptyGame 1 (some "")).1.winner
      = none := by
  decide

/-- C9 (amended): whenever the channel of the sender resolves to a registered
session AND the envelope carries a non-empty pattern, `announce_win` sets
`winner` to the id of the sender — for every game state, so regardless of
`isActive` and with no validation of the pattern against `calledNumbers` —
and broadcasts a `winner_announced` envelope to all connected clients. -/
theorem announceWin_sets_winner (openS failS : Nat → Bool)
    (users : List (String × User)) (g : GameState) (sock : Nat)
    (pat : Option String) (uid : String) (u : User) (s : String)
    (hfind : findBySocket users sock = some (uid, u))
    (hpat : pat = some s) (hne : s.isEmpty = false) :
    (handleAnnounceWin openS failS users g sock pat).1
      = { g with winner := some u.id } ∧
    (handleAnnounceWin openS failS users g sock pat).2
      = broadcastToAll openS failS users
          (Envelope.winnerAnnounced u.id u.username s) := by
  subst hpat
  unfold handleAnnounceWin
  rw [hfind]
  simp [hne]

/-- Witness for C9 (amended): `bob` announces pattern `row1` while the game
is INACTIVE and `row1` was never validated against any called number; the
winner is still set to `bob`. -/
theorem announceWin_sets_winner_witness :
    findBySocket [("bob", mkGuest "bob" 1)] 1
      = some ("bob", mkGuest "bob" 1) ∧
    "row1".isEmpty = false ∧
    initialGameState.active = false ∧
    (handleAnnounceWin (fun _ => true) (fun _ => false)
        [("bob", mkGuest "bob" 1)] initialGameState 1 (some "row1")).1
      = { initialGameState with winner := some "bob" } :=
  ⟨by decide, by decide, rfl,
   (announceWin_sets_winner (fun _ => true) (fun _ => false)
      [("bob", mkGuest "bob" 1)] initialGameState 1 (some "row1") "bob"
      (mkGuest "bob" 1) "row1" (by decide) rfl (by decide)).1⟩

/-- C10: the standalone `AdminController.verifyToken` accepts every token
value whatsoever — it returns `true` for all inputs, including tokens it
never issued. -/
theorem verifyToken_accepts_everything (t : String) : verifyToken t = true :=
  rfl
